import Mathlib

/-!
Verification of the `fn2::Function` type-erased callable container
(`include/fn2/fn2.h` and `include/fn2/detail.h`).

The embedding models the container state machine at the value level:

* A concrete callable type `F` is identified by a numeric id (standing for
  the address of its unique static vtable, `detail::get_vtbl<F, R, As...>`);
  per-type data (storage-mode decision, `std::is_nothrow_swappable_v`,
  and the invoke/copy/clone entries) is bundled in `Fn2.CType`, and an
  environment `env : Nat → CType` maps each type id to its table data.
* Wrapped objects of every concrete type are drawn from a single value
  type `V`; a map `tyOf : V → Nat` recovers the concrete type of a value.
* The raw storage region `storage_` is a `Fn2.Cell`: it either holds no
  constructed object (`uninit`), a live inline object (`obj v`), or is
  used as the pointer slot (`ptr p`, with `p = none` for a null pointer
  and `p = some v` for an owned heap object of value `v`).
* The `bool is_ptr_` member is `Option Bool`: `none` models the
  indeterminate value it has in a default-constructed `Function`.
* Move construction and the vtable `move` entry transfer the wrapped
  value exactly (the C++ precondition `std::is_nothrow_move_constructible`
  together with ordinary move semantics: the target object behaves as the
  source did); a moved-from source object stays live until destroyed.
* Operations that read indeterminate data or dereference an invalid
  pointer (undefined behavior in C++) return `none`.
* Exceptions are modelled with `Except E`: vtable `copy`/`clone` entries
  and constructors may throw, `invoke` may throw while still having
  mutated the callable's own state.
-/

namespace Fn2

/-- Per-concrete-type dispatch data, from `detail::Vtable` /
`detail::get_vtbl<F, R, As...>` plus the compile-time storage selection of
`Function::construct`:
* `isHeap`: negation of `sizeof(Obj) <= sizeof(Storage) && alignof(Storage) % alignof(Obj) == 0`
  (`fn2.h` line 589) — fixed per concrete type;
* `nothrowSwap`: `std::is_nothrow_swappable_v<F>` (`detail.h` line 82);
* `invoke`: the vtable invoke entry, `std::invoke(*static_cast<F*>(self), ...)`
  (`detail.h` lines 63-65) — called on a non-const `F&`, so it may mutate the
  wrapped object's own state and may throw, returning the possibly-mutated value;
* `copy`: the vtable copy entry `new (self) F(*other)` (`detail.h` lines 72-74),
  the copy constructor may throw;
* `clone`: the vtable clone entry `new F(*self)` (`detail.h` lines 96-98),
  allocation or the copy constructor may throw. -/
structure CType (E R A V : Type) where
  isHeap : Bool
  nothrowSwap : Bool
  invoke : V → A → (Except E R) × V
  copy : V → Except E V
  clone : V → Except E V

/-- Contents of the raw `storage_` region (`fn2.h` line 224/233): a union of
an inline object slot and a pointer slot. `uninit` = no constructed object
(default-constructed container, or after the vtable `destroy` entry ran on the
inline slot); `obj v` = a live inline object; `ptr p` = the region is used as
the pointer slot (`as_ptr()`), `p = none` being a null pointer and
`p = some v` an owned heap object holding value `v`. -/
inductive Cell (V : Type) where
  | uninit : Cell V
  | obj (v : V) : Cell V
  | ptr (p : Option V) : Cell V
deriving DecidableEq, Repr

/-- State of a `fn2::Function<R(As...)>` object (`fn2.h` lines 233-235):
`mutable Storage storage_; bool is_ptr_; const detail::Vtable<R, As...> *vptr_;`.
`is_ptr = none` models an indeterminate `is_ptr_` (never written), and
`vptr = none` a null vtable pointer. -/
structure Fn (V : Type) where
  storage : Cell V
  is_ptr : Option Bool
  vptr : Option Nat
deriving DecidableEq, Repr

variable {E R A V : Type}

/-- `Function() noexcept` (`fn2.h` line 244): only `vptr_` is initialized
(to null, by its default member initializer); `storage_` and `is_ptr_` are
left indeterminate. -/
def Fn.mkEmpty : Fn V := ⟨Cell.uninit, none, none⟩

/-- `operator bool() const noexcept` (`fn2.h` lines 565-567):
`return vptr_ != nullptr;`. -/
def Fn.toBool (f : Fn V) : Bool := f.vptr.isSome

/-- Observable content of a container in a valid state: the wrapped
concrete type's id, its storage mode, and the wrapped value. `none` for an
empty container (and for invalid states, which never arise from the
operations on valid states). -/
def obs (f : Fn V) : Option (Nat × Bool × V) :=
  match f.vptr with
  | none => none
  | some t =>
    match f.is_ptr with
    | none => none
    | some true =>
      match f.storage with
      | Cell.ptr (some v) => some (t, true, v)
      | _ => none
    | some false =>
      match f.storage with
      | Cell.obj v => some (t, false, v)
      | _ => none

/-- `Function::construct<F>(Ts &&...ts)` (`fn2.h` lines 575-610) for concrete
type id `t` with table data `ti`. The outcome of `Obj(std::forward<Ts>(ts)...)`
is supplied as `mk` (`Except.error e` when the constructor throws), and
`allocOk` says whether `std::malloc(sizeof(Obj))` succeeds on the heap path
(`oom` is the thrown `std::bad_alloc`). Inline path: placement-construct
into `storage_`, `is_ptr_ = false`. Heap path: if allocation fails throw
`bad_alloc`; if the constructor throws, the block is freed and the exception
propagates; otherwise `is_ptr_ = true` and the pointer is stored. -/
def constructE (t : Nat) (ti : CType E R A V) (allocOk : Bool) (mk : Except E V)
    (oom : E) : Except E (Fn V) :=
  if ti.isHeap then
    if allocOk then
      match mk with
      | Except.ok v => Except.ok ⟨Cell.ptr (some v), some true, some t⟩
      | Except.error e => Except.error e
    else
      Except.error oom
  else
    match mk with
    | Except.ok v => Except.ok ⟨Cell.obj v, some false, some t⟩
    | Except.error e => Except.error e

/-- A container successfully constructed from a callable of type id `t` with
value `v` (`Function(F &&f)`, `fn2.h` lines 257-261, via `construct`): the
storage mode follows the compile-time selection for that type. -/
def mkFn (env : Nat → CType E R A V) (t : Nat) (v : V) : Fn V :=
  ⟨if (env t).isHeap then Cell.ptr (some v) else Cell.obj v,
   some (env t).isHeap, some t⟩

/-- `operator()(As ...as) const` (`fn2.h` lines 552-561): requires a wrapped
object (`assert(vptr_)`); dispatches the vtable invoke entry on the heap
pointer or the inline slot. The invoke entry calls the wrapped object through
a non-const reference, so the wrapped value is replaced by the (possibly
mutated) value it has after the call, even when the call throws; `storage_`
is `mutable`, which is what lets this compile on a const container. -/
def call (env : Nat → CType E R A V) (f : Fn V) (x : A) :
    Option ((Except E R) × Fn V) :=
  match f.vptr with
  | none => none
  | some t =>
    match f.is_ptr with
    | none => none
    | some true =>
      match f.storage with
      | Cell.ptr (some v) =>
        some (((env t).invoke v x).1,
              ⟨Cell.ptr (some ((env t).invoke v x).2), some true, some t⟩)
      | _ => none
    | some false =>
      match f.storage with
      | Cell.obj v =>
        some (((env t).invoke v x).1,
              ⟨Cell.obj ((env t).invoke v x).2, some false, some t⟩)
      | _ => none

/-- `reset() noexcept` (`fn2.h` lines 455-470): no-op when empty; otherwise
destroy the heap object and free the block, nulling the pointer slot, or
destroy the inline object; finally null `vptr_`. `is_ptr_` is not written. -/
def resetFn (f : Fn V) : Option (Fn V) :=
  match f.vptr with
  | none => some f
  | some _ =>
    match f.is_ptr with
    | none => none
    | some true =>
      match f.storage with
      | Cell.ptr (some _) => some ⟨Cell.ptr none, some true, none⟩
      | _ => none
    | some false =>
      match f.storage with
      | Cell.obj _ => some ⟨Cell.uninit, some false, none⟩
      | _ => none

/-- Joint state of the three object addresses used by the fallback branch of
the vtable swap entry (`detail.h` lines 86-94): `self`'s slot, `other`'s
slot, and the local `temp`. A component is `none` when no live object
occupies that address (not yet constructed, or already destroyed); a
moved-from object stays live (holding its value, in this exact model of a
value-transferring move) until its destructor runs. -/
structure TriSlot (V : Type) where
  a : Option V
  b : Option V
  temp : Option V
deriving DecidableEq, Repr

/-- Number of the three addresses of a `TriSlot` currently not holding a
live object. -/
def TriSlot.invalidCount (s : TriSlot V) : Nat :=
  (if s.a.isSome then 0 else 1) + (if s.b.isSome then 0 else 1) +
    (if s.temp.isSome then 0 else 1)

/-- The successive states of the fallback branch of the vtable swap entry
(`detail.h` lines 87-93), starting from live objects `va` at `self` and
`vb` at `other` and an unconstructed `temp`:
`F temp(std::move(rhs));` — `rhs.F::~F();` — `new (other) F(std::move(lhs));`
— `lhs.F::~F();` — `new (self) F(std::move(temp));` — and the destruction of
`temp` when it goes out of scope. -/
def fallbackTrace (va vb : V) : List (TriSlot V) :=
  [⟨some va, some vb, none⟩,
   ⟨some va, some vb, some vb⟩,
   ⟨some va, none, some vb⟩,
   ⟨some va, some va, some vb⟩,
   ⟨none, some va, some vb⟩,
   ⟨some vb, some va, some vb⟩,
   ⟨some vb, some va, none⟩]

/-- The vtable swap entry (`detail.h` lines 78-95) as a function on the two
wrapped values: when `std::is_nothrow_swappable_v<F>` holds, the type's own
`swap(lhs, rhs)` exchanges the two values; otherwise the fallback stages
through `temp` (`temp := rhs`, `other := lhs`, `self := temp`), with the
same net effect. -/
def vtblSwapEntry (nothrowSwap : Bool) (va vb : V) : V × V :=
  if nothrowSwap then
    (vb, va)
  else
    let temp := vb
    let b' := va
    let a' := temp
    (a', b')

/-- The final step of `Function::swap` (`fn2.h` line 541):
`std::swap(vptr_, other.vptr_);` applied to the pair of states produced by
the branch that ran before it. -/
def swapVptrs (p : Fn V × Fn V) : Fn V × Fn V :=
  (⟨p.1.storage, p.1.is_ptr, p.2.vptr⟩, ⟨p.2.storage, p.2.is_ptr, p.1.vptr⟩)

/-- The first branch condition of `Function::swap` (`fn2.h` line 479):
`vptr_ == other.vptr_ && !is_ptr_ && !other.is_ptr_`, with `&&`
short-circuiting, so `is_ptr_` (and then `other.is_ptr_`) is read only while
the conjuncts before it are true; reading an indeterminate `is_ptr_` is
undefined behavior (`none`). -/
def sameInlineCond (a b : Fn V) : Option Bool :=
  if a.vptr = b.vptr then
    match a.is_ptr with
    | none => none
    | some true => some false
    | some false =>
      match b.is_ptr with
      | none => none
      | some pb => some (!pb)
  else
    some false

/-- `Function::swap(Function &other) noexcept` (`fn2.h` lines 473-542).
`sameObj` is `this == &other`. Guard: self-swap or two empty containers is a
no-op. Branches, each followed by `std::swap(vptr_, other.vptr_)`:
* same non-null vtable, both inline: dispatch the vtable swap entry on the
  two inline slots (line 480);
* `this` empty: adopt `other`'s discriminant, then steal the heap pointer
  (nulling `other`'s pointer slot) or move-construct from and destroy
  `other`'s inline object (lines 481-490);
* `other` empty: symmetrically (lines 491-500);
* both heap: exchange the two pointer slots (line 503);
* `this` heap / `other` inline: stage `other`'s object through a local
  `temp` (move + destroy), hand `this`'s pointer to `other`
  (`other.is_ptr_ = true`), then move `temp` into `this`'s inline slot
  (`is_ptr_ = false`) and destroy `temp` (lines 505-514) — net effect on the
  slots shown here;
* `this` inline / `other` heap: symmetrically (lines 518-527);
* both inline, different vtables: stage `this`'s object through `temp`,
  move `other`'s object into `this`'s slot, move `temp` into `other`'s slot,
  destroying each source after it is moved from (lines 529-537). -/
def swapFn (env : Nat → CType E R A V) (sameObj : Bool) (a b : Fn V) :
    Option (Fn V × Fn V) :=
  if sameObj ∨ (a.vptr = none ∧ b.vptr = none) then
    some (a, b)
  else
    match sameInlineCond a b with
    | none => none
    | some true =>
      match a.vptr, a.storage, b.storage with
      | some t, Cell.obj va, Cell.obj vb =>
        let sw := vtblSwapEntry (env t).nothrowSwap va vb
        some (swapVptrs (⟨Cell.obj sw.1, a.is_ptr, a.vptr⟩,
                         ⟨Cell.obj sw.2, b.is_ptr, b.vptr⟩))
      | _, _, _ => none
    | some false =>
      if a.vptr = none then
        match b.is_ptr with
        | none => none
        | some true =>
          match b.storage with
          | Cell.ptr p =>
            some (swapVptrs (⟨Cell.ptr p, some true, a.vptr⟩,
                             ⟨Cell.ptr none, some true, b.vptr⟩))
          | _ => none
        | some false =>
          match b.storage with
          | Cell.obj v =>
            some (swapVptrs (⟨Cell.obj v, some false, a.vptr⟩,
                             ⟨Cell.uninit, some false, b.vptr⟩))
          | _ => none
      else if b.vptr = none then
        match a.is_ptr with
        | none => none
        | some true =>
          match a.storage with
          | Cell.ptr p =>
            some (swapVptrs (⟨Cell.ptr none, some true, a.vptr⟩,
                             ⟨Cell.ptr p, some true, b.vptr⟩))
          | _ => none
        | some false =>
          match a.storage with
          | Cell.obj v =>
            some (swapVptrs (⟨Cell.uninit, some false, a.vptr⟩,
                             ⟨Cell.obj v, some false, b.vptr⟩))
          | _ => none
      else
        match a.is_ptr with
        | none => none
        | some true =>
          match b.is_ptr with
          | none => none
          | some true =>
            match a.storage, b.storage with
            | Cell.ptr pa, Cell.ptr pb =>
              some (swapVptrs (⟨Cell.ptr pb, some true, a.vptr⟩,
                               ⟨Cell.ptr pa, some true, b.vptr⟩))
            | _, _ => none
          | some false =>
            match a.storage, b.storage with
            | Cell.ptr pa, Cell.obj vb =>
              some (swapVptrs (⟨Cell.obj vb, some false, a.vptr⟩,
                               ⟨Cell.ptr pa, some true, b.vptr⟩))
            | _, _ => none
        | some false =>
          match b.is_ptr with
          | none => none
          | some true =>
            match a.storage, b.storage with
            | Cell.obj va, Cell.ptr pb =>
              some (swapVptrs (⟨Cell.ptr pb, some true, a.vptr⟩,
                               ⟨Cell.obj va, some false, b.vptr⟩))
            | _, _ => none
          | some false =>
            match a.storage, b.storage with
            | Cell.obj va, Cell.obj vb =>
              some (swapVptrs (⟨Cell.obj vb, some false, a.vptr⟩,
                               ⟨Cell.obj va, some false, b.vptr⟩))
            | _, _ => none

/-- `Function(const Function &other)` (`fn2.h` lines 319-332):
`vptr_ = other.vptr_`; done if empty; else `is_ptr_ = other.is_ptr_`, then
clone onto the heap or copy into the inline slot via the vtable; either may
throw, in which case the new container never comes into existence. -/
def copyCtorFn (env : Nat → CType E R A V) (other : Fn V) :
    Option (Except E (Fn V)) :=
  match other.vptr with
  | none => some (Except.ok ⟨Cell.uninit, none, none⟩)
  | some t =>
    match other.is_ptr with
    | none => none
    | some true =>
      match other.storage with
      | Cell.ptr (some v) =>
        some (((env t).clone v).map fun v' => ⟨Cell.ptr (some v'), some true, some t⟩)
      | _ => none
    | some false =>
      match other.storage with
      | Cell.obj v =>
        some (((env t).copy v).map fun v' => ⟨Cell.obj v', some false, some t⟩)
      | _ => none

/-- `Function(Function &&other) noexcept` (`fn2.h` lines 338-352): result is
the new container and the state `other` is left in. `vptr_ = other.vptr_`;
done if empty. Heap: copy the pointer and null `other.vptr_` — `other`'s
pointer slot keeps the stale pointer, but `other` is empty. Inline:
move-construct from `other`'s inline object; `other` is left entirely as it
was — still non-empty, its slot holding the moved-from object. -/
def moveCtorFn (other : Fn V) : Option (Fn V × Fn V) :=
  match other.vptr with
  | none => some (⟨Cell.uninit, none, none⟩, other)
  | some t =>
    match other.is_ptr with
    | none => none
    | some true =>
      match other.storage with
      | Cell.ptr p =>
        some (⟨Cell.ptr p, some true, some t⟩, ⟨other.storage, other.is_ptr, none⟩)
      | _ => none
    | some false =>
      match other.storage with
      | Cell.obj v => some (⟨Cell.obj v, some false, some t⟩, other)
      | _ => none

/-- `operator=(const Function &other)` (`fn2.h` lines 368-376): guarded
against self-assignment (`sameObj` is `this == &other`); otherwise
`Function copy(other); swap(copy);` — if the copy construction throws, the
exception propagates with `self` (and `other`) untouched; on success the
temporary, now holding `self`'s old content, is destroyed at scope end.
Returns the outcome together with the final states of `self` and `other`. -/
def assignCopyFn (env : Nat → CType E R A V) (sameObj : Bool)
    (self other : Fn V) : Option (Except E Unit × Fn V × Fn V) :=
  if sameObj then
    some (Except.ok (), self, other)
  else
    match copyCtorFn env other with
    | none => none
    | some (Except.error e) => some (Except.error e, self, other)
    | some (Except.ok c) =>
      match swapFn env false self c with
      | none => none
      | some (self', _) => some (Except.ok (), self', other)

/-- `operator=(Function &&other) noexcept` (`fn2.h` lines 386-392): guarded
against self-assignment; otherwise `swap(other)`. -/
def assignMoveFn (env : Nat → CType E R A V) (sameObj : Bool)
    (self other : Fn V) : Option (Fn V × Fn V) :=
  if sameObj then some (self, other) else swapFn env false self other

/-- `emplace<F>(Us &&...us)` (`fn2.h` lines 426-431):
`Function g(std::in_place_type<F>, ...); swap(g);` — the construction of `g`
(modelled by `constructE`) may throw, in which case `self` is untouched; on
success the temporary, now holding `self`'s old content, is destroyed at
scope end. Returns the outcome together with the final state of `self`. -/
def emplaceFn (env : Nat → CType E R A V) (self : Fn V) (t : Nat)
    (allocOk : Bool) (mk : Except E V) (oom : E) :
    Option (Except E Unit × Fn V) :=
  match constructE t (env t) allocOk mk oom with
  | Except.error e => some (Except.error e, self)
  | Except.ok g =>
    match swapFn env false self g with
    | none => none
    | some (self', _) => some (Except.ok (), self')

/-- The container state invariant (spec §3): a null `vptr_` means empty (no
constraint on the other members, whose values are then meaningless);
a non-null `vptr_` requires a determinate `is_ptr_`, and the storage region
must hold, per the discriminant, either a non-null heap pointer to a live
object of the table's concrete type, or a live inline object of that type. -/
def WFb (tyOf : V → Nat) (f : Fn V) : Bool :=
  match f.vptr with
  | none => true
  | some t =>
    match f.is_ptr with
    | none => false
    | some true =>
      match f.storage with
      | Cell.ptr (some v) => tyOf v == t
      | _ => false
    | some false =>
      match f.storage with
      | Cell.obj v => tyOf v == t
      | _ => false

/-- Coherence of a vtable environment with the typing map: the operations of
the table for type `t`, applied to a value of type `t`, yield values of
type `t` (each `get_vtbl<F, ...>` instance only ever handles `F` objects). -/
def EnvOk (env : Nat → CType E R A V) (tyOf : V → Nat) : Prop :=
  ∀ t v, tyOf v = t →
    (∀ x, tyOf ((env t).invoke v x).2 = t) ∧
    (∀ v', (env t).copy v = Except.ok v' → tyOf v' = t) ∧
    (∀ v', (env t).clone v = Except.ok v' → tyOf v' = t)

/-! ### A concrete instantiation

Used to evaluate the operations on explicit inputs. Values are pairs
`(type id, payload)` over `V := Nat × Nat` with `tyOfD = Prod.fst`;
exceptions are `Unit`; call signature is `Nat(Nat)`. Type id 0 is
inline-eligible, type id 1 is heap-resident (mirroring a small and a large
callable). -/

/-- Concrete typing map: a value's concrete type is its first component. -/
def tyOfD : Nat × Nat → Nat := Prod.fst

/-- Concrete vtable environment with well-behaved callables: invoking a
wrapped value `(t, n)` with argument `x` returns `n + x` and leaves the
value unchanged; copy and clone duplicate the value exactly. -/
def envD : Nat → CType Unit Nat Nat (Nat × Nat) := fun t =>
  ⟨t == 1, t == 0,
   fun v x => (Except.ok (v.2 + x), v),
   fun v => Except.ok v,
   fun v => Except.ok v⟩

/-- Concrete vtable environment whose callables mutate their own captured
state on invocation (like a `mutable` lambda holding a counter or a
`std::mt19937`, as wrapped in the repository's tests): invoking `(t, n)`
returns `n` and leaves the wrapped object holding `(t, n + 1)`. -/
def envM : Nat → CType Unit Nat Nat (Nat × Nat) := fun t =>
  ⟨t == 1, false,
   fun v _ => (Except.ok v.2, (v.1, v.2 + 1)),
   fun v => Except.ok v,
   fun v => Except.ok v⟩

/-- Concrete vtable environment whose copy constructor (and hence clone)
always throws. -/
def envE : Nat → CType Unit Nat Nat (Nat × Nat) := fun t =>
  ⟨t == 1, false,
   fun v x => (Except.ok (v.2 + x), v),
   fun _ => Except.error (),
   fun _ => Except.error ()⟩

/-- Modelled from the spec: the literal step sequence the spec (§4.4 case 3
followed by the universal final step, and claim C6) prescribes for swapping
an empty `a` with a non-empty `b` — "copy `b`'s discriminant to `a`; if
heap, move the pointer (set `b`'s pointer to null); if inline, call
`b.table.move(&a.storage, &b.storage)` then `b.table.destroy(&b.storage)`;
finally clear `b`'s table. Then swap the table pointers themselves." The
explicit table-clearing step before the table-pointer swap is what this
definition exists to compare against `swapFn`, whose only table update is
the final pointer swap. -/
def specTransferFromNonEmpty (a b : Fn V) : Option (Fn V × Fn V) :=
  match b.is_ptr with
  | none => none
  | some true =>
    match b.storage with
    | Cell.ptr p =>
      some (swapVptrs (⟨Cell.ptr p, some true, a.vptr⟩,
                       ⟨Cell.ptr none, some true, none⟩))
    | _ => none
  | some false =>
    match b.storage with
    | Cell.obj v =>
      some (swapVptrs (⟨Cell.obj v, some false, a.vptr⟩,
                       ⟨Cell.uninit, some false, none⟩))
    | _ => none

/-! ### Structural lemmas -/

/-- Both branches of the vtable swap entry exchange the two values. -/
theorem vtblSwapEntry_eq (nt : Bool) (va vb : V) :
    vtblSwapEntry nt va vb = (vb, va) := by
  cases nt <;> rfl

/-- Inversion of the state invariant: a well-formed container is empty, or
holds an inline object of its table's type, or owns a heap object of its
table's type. -/
theorem WFb_cases (tyOf : V → Nat) (f : Fn V) (h : WFb tyOf f = true) :
    f.vptr = none ∨
    (∃ t v, tyOf v = t ∧ f = ⟨Cell.obj v, some false, some t⟩) ∨
    (∃ t v, tyOf v = t ∧ f = ⟨Cell.ptr (some v), some true, some t⟩) := by
  obtain ⟨s, ip, vp⟩ := f
  cases vp with
  | none => exact Or.inl rfl
  | some t =>
    cases ip with
    | none => simp [WFb] at h
    | some b =>
      cases b with
      | false =>
        cases s with
        | uninit => simp [WFb] at h
        | obj v =>
          refine Or.inr (Or.inl ⟨t, v, ?_, rfl⟩)
          simpa [WFb] using h
        | ptr p => simp [WFb] at h
      | true =>
        cases s with
        | uninit => simp [WFb] at h
        | obj v => simp [WFb] at h
        | ptr p =>
          cases p with
          | none => simp [WFb] at h
          | some v =>
            refine Or.inr (Or.inr ⟨t, v, ?_, rfl⟩)
            simpa [WFb] using h

/-- An empty container has no observable content, whatever the residual
values of its other members. -/
theorem obs_of_vptr_none (f : Fn V) (h : f.vptr = none) : obs f = none := by
  obtain ⟨s, ip, vp⟩ := f
  subst h
  rfl

/-- An empty container is well formed, whatever the residual values of its
other members. -/
theorem WFb_of_vptr_none (tyOf : V → Nat) (f : Fn V) (h : f.vptr = none) :
    WFb tyOf f = true := by
  obtain ⟨s, ip, vp⟩ := f
  subst h
  rfl

/-- Central lemma about `Function::swap` on two distinct well-formed
containers: it never hits undefined behavior, it exchanges the two
observable contents, and it preserves the invariant. -/
theorem swap_obs (env : Nat → CType E R A V) (tyOf : V → Nat) (a b : Fn V)
    (ha : WFb tyOf a = true) (hb : WFb tyOf b = true) :
    ∃ a' b', swapFn env false a b = some (a', b') ∧
      obs a' = obs b ∧ obs b' = obs a ∧
      WFb tyOf a' = true ∧ WFb tyOf b' = true := by
  rcases WFb_cases tyOf a ha with hA | ⟨t1, v1, ht1, rfl⟩ | ⟨t1, v1, ht1, rfl⟩ <;>
    rcases WFb_cases tyOf b hb with hB | ⟨t2, v2, ht2, rfl⟩ | ⟨t2, v2, ht2, rfl⟩
  -- a empty, b empty
  · exact ⟨a, b, by simp [swapFn, hA, hB],
      by rw [obs_of_vptr_none a hA, obs_of_vptr_none b hB],
      by rw [obs_of_vptr_none a hA, obs_of_vptr_none b hB], ha, hb⟩
  -- a empty, b inline
  · obtain ⟨sa, ipa, vpa⟩ := a
    simp only at hA
    subst hA
    refine ⟨⟨Cell.obj v2, some false, some t2⟩, ⟨Cell.uninit, some false, none⟩,
      ?_, ?_, ?_, ?_, ?_⟩ <;>
      simp [swapFn, sameInlineCond, swapVptrs, obs, WFb, ht2]
  -- a empty, b heap
  · obtain ⟨sa, ipa, vpa⟩ := a
    simp only at hA
    subst hA
    refine ⟨⟨Cell.ptr (some v2), some true, some t2⟩,
      ⟨Cell.ptr none, some true, none⟩, ?_, ?_, ?_, ?_, ?_⟩ <;>
      simp [swapFn, sameInlineCond, swapVptrs, obs, WFb, ht2]
  -- a inline, b empty
  · obtain ⟨sb, ipb, vpb⟩ := b
    simp only at hB
    subst hB
    refine ⟨⟨Cell.uninit, some false, none⟩, ⟨Cell.obj v1, some false, some t1⟩,
      ?_, ?_, ?_, ?_, ?_⟩ <;>
      simp [swapFn, sameInlineCond, swapVptrs, obs, WFb, ht1]
  -- a inline, b inline
  · by_cases ht : t1 = t2
    · subst ht
      refine ⟨⟨Cell.obj v2, some false, some t1⟩, ⟨Cell.obj v1, some false, some t1⟩,
        ?_, ?_, ?_, ?_, ?_⟩ <;>
        simp [swapFn, sameInlineCond, swapVptrs, vtblSwapEntry_eq, obs, WFb, ht1, ht2]
    · refine ⟨⟨Cell.obj v2, some false, some t2⟩, ⟨Cell.obj v1, some false, some t1⟩,
        ?_, ?_, ?_, ?_, ?_⟩ <;>
        simp [swapFn, sameInlineCond, swapVptrs, obs, WFb, ht, ht1, ht2]
  -- a inline, b heap
  · refine ⟨⟨Cell.ptr (some v2), some true, some t2⟩,
      ⟨Cell.obj v1, some false, some t1⟩, ?_, ?_, ?_, ?_, ?_⟩ <;>
      by_cases ht : t1 = t2 <;>
      simp [swapFn, sameInlineCond, swapVptrs, obs, WFb, ht, ht1, ht2]
  -- a heap, b empty
  · obtain ⟨sb, ipb, vpb⟩ := b
    simp only at hB
    subst hB
    refine ⟨⟨Cell.ptr none, some true, none⟩,
      ⟨Cell.ptr (some v1), some true, some t1⟩, ?_, ?_, ?_, ?_, ?_⟩ <;>
      simp [swapFn, sameInlineCond, swapVptrs, obs, WFb, ht1]
  -- a heap, b inline
  · refine ⟨⟨Cell.obj v2, some false, some t2⟩,
      ⟨Cell.ptr (some v1), some true, some t1⟩, ?_, ?_, ?_, ?_, ?_⟩ <;>
      by_cases ht : t1 = t2 <;>
      simp [swapFn, sameInlineCond, swapVptrs, obs, WFb, ht, ht1, ht2]
  -- a heap, b heap
  · refine ⟨⟨Cell.ptr (some v2), some true, some t2⟩,
      ⟨Cell.ptr (some v1), some true, some t1⟩, ?_, ?_, ?_, ?_, ?_⟩ <;>
      by_cases ht : t1 = t2 <;>
      simp [swapFn, sameInlineCond, swapVptrs, obs, WFb, ht, ht1, ht2]

/-- Inversion of successful construction: the constructor ran without
throwing and the container's state follows the compile-time storage
selection for the concrete type. -/
theorem constructE_ok (t : Nat) (ti : CType E R A V) (allocOk : Bool)
    (mk : Except E V) (oom : E) (g : Fn V)
    (h : constructE t ti allocOk mk oom = Except.ok g) :
    ∃ v, mk = Except.ok v ∧
      g = ⟨if ti.isHeap then Cell.ptr (some v) else Cell.obj v,
           some ti.isHeap, some t⟩ := by
  cases hh : ti.isHeap <;> cases allocOk <;> cases mk <;>
    simp_all [constructE]

/-- A container built from a callable of its table's type is well formed. -/
theorem WFb_mkFn (env : Nat → CType E R A V) (tyOf : V → Nat) (t : Nat)
    (v : V) (hv : tyOf v = t) : WFb tyOf (mkFn env t v) = true := by
  cases h : (env t).isHeap <;> simp [mkFn, WFb, h, hv]

/-- Copy construction from a well-formed source never hits undefined
behavior, and when no exception is thrown the new container is well formed
and carries the source's table and storage mode, wrapping the value the
copy/clone entry produced. -/
theorem copyCtorFn_wf (env : Nat → CType E R A V) (tyOf : V → Nat)
    (hEnv : EnvOk env tyOf) (other : Fn V) (ho : WFb tyOf other = true) :
    ∃ r, copyCtorFn env other = some r ∧
      ∀ c, r = Except.ok c → WFb tyOf c = true := by
  rcases WFb_cases tyOf other ho with hO | ⟨t, v, htv, rfl⟩ | ⟨t, v, htv, rfl⟩
  · obtain ⟨s, ip, vp⟩ := other
    simp only at hO
    subst hO
    refine ⟨Except.ok ⟨Cell.uninit, none, none⟩, rfl, ?_⟩
    intro c hc
    simp only [Except.ok.injEq] at hc
    subst hc
    rfl
  · refine ⟨((env t).copy v).map fun v' => ⟨Cell.obj v', some false, some t⟩,
      by simp [copyCtorFn], ?_⟩
    intro c hc
    cases hcp : (env t).copy v with
    | error e =>
      rw [hcp] at hc
      simp only [Except.map] at hc
      cases hc
    | ok v' =>
      rw [hcp] at hc
      simp only [Except.map, Except.ok.injEq] at hc
      subst hc
      simp [WFb, (hEnv t v htv).2.1 v' hcp]
  · refine ⟨((env t).clone v).map fun v' => ⟨Cell.ptr (some v'), some true, some t⟩,
      by simp [copyCtorFn], ?_⟩
    intro c hc
    cases hcp : (env t).clone v with
    | error e =>
      rw [hcp] at hc
      simp only [Except.map] at hc
      cases hc
    | ok v' =>
      rw [hcp] at hc
      simp only [Except.map, Except.ok.injEq] at hc
      subst hc
      simp [WFb, (hEnv t v htv).2.2 v' hcp]

/-- Move construction from a well-formed source never hits undefined
behavior and leaves both containers well formed; the new container carries
the source's observable content. -/
theorem moveCtorFn_wf (tyOf : V → Nat) (other : Fn V)
    (ho : WFb tyOf other = true) :
    ∃ d other', moveCtorFn other = some (d, other') ∧ obs d = obs other ∧
      WFb tyOf d = true ∧ WFb tyOf other' = true := by
  rcases WFb_cases tyOf other ho with hO | ⟨t, v, htv, rfl⟩ | ⟨t, v, htv, rfl⟩
  · obtain ⟨s, ip, vp⟩ := other
    simp only at hO
    subst hO
    exact ⟨⟨Cell.uninit, none, none⟩, ⟨s, ip, none⟩, rfl, rfl, rfl, rfl⟩
  · exact ⟨⟨Cell.obj v, some false, some t⟩, ⟨Cell.obj v, some false, some t⟩,
      by simp [moveCtorFn], rfl, by simp [WFb, htv], by simp [WFb, htv]⟩
  · exact ⟨⟨Cell.ptr (some v), some true, some t⟩,
      ⟨Cell.ptr (some v), some true, none⟩,
      by simp [moveCtorFn], rfl, by simp [WFb, htv], rfl⟩

/-- Reset on a well-formed container never hits undefined behavior and
leaves a well-formed, empty container. -/
theorem resetFn_wf (tyOf : V → Nat) (f : Fn V) (hf : WFb tyOf f = true) :
    ∃ f', resetFn f = some f' ∧ WFb tyOf f' = true ∧ f'.toBool = false := by
  rcases WFb_cases tyOf f hf with hF | ⟨t, v, htv, rfl⟩ | ⟨t, v, htv, rfl⟩
  · obtain ⟨s, ip, vp⟩ := f
    simp only at hF
    subst hF
    exact ⟨⟨s, ip, none⟩, rfl, rfl, rfl⟩
  · exact ⟨⟨Cell.uninit, some false, none⟩, rfl, rfl, rfl⟩
  · exact ⟨⟨Cell.ptr none, some true, none⟩, rfl, rfl, rfl⟩

/-- Invocation of a non-empty well-formed container never hits undefined
behavior, keeps the container well formed, and returns exactly the outcome
of the vtable invoke entry on the wrapped value. -/
theorem call_wf (env : Nat → CType E R A V) (tyOf : V → Nat)
    (hEnv : EnvOk env tyOf) (f : Fn V) (hf : WFb tyOf f = true)
    (hne : f.toBool = true) (x : A) :
    ∃ r f', call env f x = some (r, f') ∧ WFb tyOf f' = true := by
  rcases WFb_cases tyOf f hf with hF | ⟨t, v, htv, rfl⟩ | ⟨t, v, htv, rfl⟩
  · rw [Fn.toBool, hF] at hne
    simp at hne
  · exact ⟨((env t).invoke v x).1, ⟨Cell.obj ((env t).invoke v x).2, some false, some t⟩,
      by simp [call], by simp [WFb, (hEnv t v htv).1 x]⟩
  · exact ⟨((env t).invoke v x).1,
      ⟨Cell.ptr (some ((env t).invoke v x).2), some true, some t⟩,
      by simp [call], by simp [WFb, (hEnv t v htv).1 x]⟩

/-- The well-behaved concrete environment is coherent with the typing map. -/
theorem envOk_envD : EnvOk envD tyOfD := by
  intro t v hv
  refine ⟨fun x => hv, fun v' h => ?_, fun v' h => ?_⟩ <;>
    · simp only [envD, Except.ok.injEq] at h
      subst h
      exact hv

/-- The mutating concrete environment is coherent with the typing map. -/
theorem envOk_envM : EnvOk envM tyOfD := by
  intro t v hv
  refine ⟨fun x => hv, fun v' h => ?_, fun v' h => ?_⟩ <;>
    · simp only [envM, Except.ok.injEq] at h
      subst h
      exact hv

/-- The throwing concrete environment is coherent with the typing map. -/
theorem envOk_envE : EnvOk envE tyOfD := by
  intro t v hv
  refine ⟨fun x => hv, fun v' h => ?_, fun v' h => ?_⟩ <;>
    simp [envE] at h

/-- Copy assignment between distinct well-formed containers never hits
undefined behavior and leaves both sides well formed; the right-hand side
is untouched. -/
theorem assignCopyFn_wf (env : Nat → CType E R A V) (tyOf : V → Nat)
    (hEnv : EnvOk env tyOf) (f g : Fn V) (hf : WFb tyOf f = true)
    (hg : WFb tyOf g = true) :
    ∃ r s', assignCopyFn env false f g = some (r, s', g) ∧
      WFb tyOf s' = true := by
  obtain ⟨r, hr, hok⟩ := copyCtorFn_wf env tyOf hEnv g hg
  cases r with
  | error e => exact ⟨Except.error e, f, by simp [assignCopyFn, hr], hf⟩
  | ok c =>
    have hc : WFb tyOf c = true := hok c rfl
    obtain ⟨s', c', hs, _, _, hw1, _⟩ := swap_obs env tyOf f c hf hc
    exact ⟨Except.ok (), s', by simp [assignCopyFn, hr, hs], hw1⟩

/-- Emplace on a well-formed container never hits undefined behavior and
leaves the container well formed, whether or not the construction of the
temporary throws. -/
theorem emplaceFn_wf (env : Nat → CType E R A V) (tyOf : V → Nat) (f : Fn V)
    (hf : WFb tyOf f = true) (t : Nat) (allocOk : Bool) (mk : Except E V)
    (oom : E) (hmk : ∀ w, mk = Except.ok w → tyOf w = t) :
    ∃ r s', emplaceFn env f t allocOk mk oom = some (r, s') ∧
      WFb tyOf s' = true := by
  cases hc : constructE t (env t) allocOk mk oom with
  | error e => exact ⟨Except.error e, f, by simp [emplaceFn, hc], hf⟩
  | ok g =>
    obtain ⟨v, hv, hg⟩ := constructE_ok t (env t) allocOk mk oom g hc
    have hwg : WFb tyOf g = true := by
      subst hg
      cases hh : (env t).isHeap <;> simp [WFb, hh, hmk v hv]
    obtain ⟨s', g', hs, _, _, hw1, _⟩ := swap_obs env tyOf f g hf hwg
    exact ⟨Except.ok (), s', by simp [emplaceFn, hc, hs], hw1⟩

/-! ### The claims -/

/-- Claim C1: a container constructed from a concrete callable (of type id
`t`, wrapped value `v`) is non-empty, and invoking it with any argument
returns exactly what invoking the callable directly returns — the container
afterwards wrapping exactly the value the callable itself produced —
regardless of whether the compile-time selector stored it inline or on the
heap. -/
theorem construct_then_invoke (env : Nat → CType E R A V) (t : Nat) (v : V)
    (x : A) :
    Fn.toBool (mkFn env t v) = true ∧
    call env (mkFn env t v) x =
      some (((env t).invoke v x).1, mkFn env t ((env t).invoke v x).2) := by
  cases h : (env t).isHeap <;> simp [Fn.toBool, mkFn, call, h]

/-- Claim C2: swap is an involution — on any two distinct well-formed
containers (each empty, inline or heap, holding equal or different concrete
types), swapping twice never hits undefined behavior and restores both
observable contents (emptiness, concrete type, storage mode, and wrapped
value — hence also invocation behavior). -/
theorem swap_involution (env : Nat → CType E R A V) (tyOf : V → Nat)
    (a b : Fn V) (ha : WFb tyOf a = true) (hb : WFb tyOf b = true) :
    (((swapFn env false a b).bind fun p => swapFn env false p.1 p.2).map
        fun p => (obs p.1, obs p.2)) = some (obs a, obs b) := by
  obtain ⟨a', b', h1, o1, o2, w1, w2⟩ := swap_obs env tyOf a b ha hb
  obtain ⟨a'', b'', h2, o3, o4, _, _⟩ := swap_obs env tyOf a' b' w1 w2
  rw [h1]
  show (swapFn env false a' b').map (fun p => (obs p.1, obs p.2)) =
    some (obs a, obs b)
  rw [h2]
  show some (obs a'', obs b'') = some (obs a, obs b)
  rw [o3, o2, o4, o1]

/-- Claim C8: the vtable in-place swap entry exchanges the two wrapped
values in both of its branches (the type's own non-throwing swap, or the
staged move/destroy fallback); along the fallback sequence at most one of
the three object addresses (`self`'s slot, `other`'s slot, the local
`temp`) is ever without a live object, and the sequence starts and ends
with exactly `self` and `other` occupied — so it never changes which
addresses hold valid objects. -/
theorem vtbl_swap_entry_exchanges (nt : Bool) (va vb : V) :
    vtblSwapEntry nt va vb = (vb, va) ∧
    (fallbackTrace va vb).head? = some ⟨some va, some vb, none⟩ ∧
    (fallbackTrace va vb).getLast? = some ⟨some vb, some va, none⟩ ∧
    ((fallbackTrace va vb).all fun s => decide (s.invalidCount ≤ 1)) = true :=
  ⟨vtblSwapEntry_eq nt va vb, rfl, rfl, rfl⟩

/-- Claim C10: self-swap is a no-op — `this == &other` is guarded before
any branch runs, so for every container state (well formed or not, empty,
inline or heap) the state is returned unchanged and no vtable operation
(move, destroy, in-place swap) is performed. -/
theorem self_swap_noop (env : Nat → CType E R A V) (f : Fn V) :
    swapFn env true f f = some (f, f) := by
  simp [swapFn]

/-- Claim C3, counterexample: move-constructing from a container whose
content is stored inline leaves the source entirely unchanged — still
non-empty, its boolean conversion returning `true` — contradicting the
claim that the moved-from source is left empty. (The heap case does clear
the source's table; only the inline branch of `Function(Function&&)` keeps
it, matching the tests, which guard the moved-from container with
`if (f)`.) -/
theorem move_ctor_inline_source_not_empty :
    moveCtorFn (mkFn envD 0 (0, 5)) =
      some (mkFn envD 0 (0, 5), mkFn envD 0 (0, 5)) ∧
    Fn.toBool (mkFn envD 0 (0, 5)) = true :=
  ⟨rfl, rfl⟩

/-- Claim C3 (amended): after move construction the new container holds
exactly the state the source held (same table, discriminant and content, so
identical invocation behavior). A heap-resident source is left empty (its
table nulled, its boolean conversion `false`, its pointer slot merely
stale); an inline source is left entirely unchanged — still non-empty,
wrapping the moved-from object. -/
theorem move_ctor_transfer (c : Fn V) :
    (∀ t (v : V), c = ⟨Cell.ptr (some v), some true, some t⟩ →
       moveCtorFn c = some (c, ⟨Cell.ptr (some v), some true, none⟩) ∧
       Fn.toBool (⟨Cell.ptr (some v), some true, none⟩ : Fn V) = false) ∧
    (∀ t (v : V), c = ⟨Cell.obj v, some false, some t⟩ →
       moveCtorFn c = some (c, c) ∧ Fn.toBool c = true) := by
  constructor <;> rintro t v rfl <;> exact ⟨rfl, rfl⟩

/-- Claim C3 witness: the amended theorem at a concrete heap-resident
container. -/
theorem move_ctor_transfer_witness :
    moveCtorFn (⟨Cell.ptr (some (1, 5)), some true, some 1⟩ : Fn (Nat × Nat)) =
      some (⟨Cell.ptr (some (1, 5)), some true, some 1⟩,
            ⟨Cell.ptr (some (1, 5)), some true, none⟩) ∧
    Fn.toBool (⟨Cell.ptr (some (1, 5)), some true, none⟩ : Fn (Nat × Nat)) =
      false :=
  (move_ctor_transfer ⟨Cell.ptr (some (1, 5)), some true, some 1⟩).1 1 (1, 5) rfl

/-- Claim C4, counterexample: the vtable invoke entry calls the wrapped
object through a non-const reference (`storage_` is `mutable`), so a
callable that mutates its own captured state — here one that increments a
counter — changes the storage contents during a successful invocation: the
container's state after the call differs from its state before,
contradicting the claim that invocation never mutates storage. -/
theorem invoke_mutates_storage :
    call envM (mkFn envM 0 (0, 0)) 7 =
      some (Except.ok 0, ⟨Cell.obj (0, 1), some false, some 0⟩) ∧
    (⟨Cell.obj (0, 1), some false, some 0⟩ : Fn (Nat × Nat)) ≠
      mkFn envM 0 (0, 0) :=
  ⟨rfl, by decide⟩

/-- Claim C4 (amended): invocation dispatches to the wrapped callable
without catching, so the outcome — normal result or exception — is exactly
the callable's own, propagated unchanged; the table pointer and the
discriminant are never written, and the storage region changes only in
that the wrapped value is replaced by the value the callable itself left
behind (the `mutable` qualifier on `storage_` exists to permit this
through the const call operator). In particular, when the callable does
not mutate its own state, the container's entire state is unchanged. -/
theorem invoke_frame (env : Nat → CType E R A V) (f f' : Fn V) (x : A)
    (r : Except E R) (h : call env f x = some (r, f')) :
    f'.vptr = f.vptr ∧ f'.is_ptr = f.is_ptr ∧
    (∀ t v, f.vptr = some t → f.is_ptr = some false → f.storage = Cell.obj v →
       r = ((env t).invoke v x).1 ∧
       f'.storage = Cell.obj ((env t).invoke v x).2 ∧
       (((env t).invoke v x).2 = v → f' = f)) ∧
    (∀ t v, f.vptr = some t → f.is_ptr = some true →
       f.storage = Cell.ptr (some v) →
       r = ((env t).invoke v x).1 ∧
       f'.storage = Cell.ptr (some ((env t).invoke v x).2) ∧
       (((env t).invoke v x).2 = v → f' = f)) := by
  obtain ⟨s, ip, vp⟩ := f
  cases vp with
  | none => simp [call] at h
  | some t =>
    cases ip with
    | none => simp [call] at h
    | some b =>
      cases b with
      | false =>
        cases s with
        | uninit => simp [call] at h
        | ptr p => simp [call] at h
        | obj v =>
          simp only [call, Option.some.injEq, Prod.mk.injEq] at h
          obtain ⟨hr, hf'⟩ := h
          subst hf'
          refine ⟨rfl, rfl, ?_, ?_⟩
          · rintro t' v' ht' _ hs
            simp only [Option.some.injEq] at ht'
            subst ht'
            cases hs
            exact ⟨hr.symm, rfl, fun hm => by rw [hm]⟩
          · rintro t' v' _ hip _
            simp at hip
      | true =>
        cases s with
        | uninit => simp [call] at h
        | obj v => simp [call] at h
        | ptr p =>
          cases p with
          | none => simp [call] at h
          | some v =>
            simp only [call, Option.some.injEq, Prod.mk.injEq] at h
            obtain ⟨hr, hf'⟩ := h
            subst hf'
            refine ⟨rfl, rfl, ?_, ?_⟩
            · rintro t' v' _ hip _
              simp at hip
            · rintro t' v' ht' _ hs
              simp only [Option.some.injEq] at ht'
              subst ht'
              cases hs
              exact ⟨hr.symm, rfl, fun hm => by rw [hm]⟩

/-- Claim C4 witness: the frame theorem at a concrete invocation of a
non-mutating callable, extracting that the returned outcome is exactly the
callable's own. -/
theorem invoke_frame_witness :
    (Except.ok 12 : Except Unit Nat) = ((envD 0).invoke (0, 5) 7).1 :=
  ((invoke_frame envD (mkFn envD 0 (0, 5)) (mkFn envD 0 (0, 5)) 7
      (Except.ok 12) rfl).2.2.1 0 (0, 5) rfl rfl rfl).1

/-- Claim C6, counterexample: the claim prescribes clearing `b`'s table and
then swapping the two table pointers. Performing that literal sequence on
an empty `a` and an inline non-empty `b` leaves the formerly-empty side
with a null table (boolean conversion `false`) — contradicting both the
claim's own outcome ("the formerly-empty side holds b's original value")
and the code, whose only table update in `Function::swap` is the final
pointer swap, after which the formerly-empty side is non-empty. -/
theorem empty_swap_spec_sequence_differs :
    specTransferFromNonEmpty Fn.mkEmpty (mkFn envD 0 (0, 5)) =
      some (⟨Cell.obj (0, 5), some false, none⟩,
            ⟨Cell.uninit, some false, none⟩) ∧
    Fn.toBool (⟨Cell.obj (0, 5), some false, none⟩ : Fn (Nat × Nat)) = false ∧
    swapFn envD false Fn.mkEmpty (mkFn envD 0 (0, 5)) =
      some (⟨Cell.obj (0, 5), some false, some 0⟩,
            ⟨Cell.uninit, some false, none⟩) ∧
    Fn.toBool (⟨Cell.obj (0, 5), some false, some 0⟩ : Fn (Nat × Nat)) = true :=
  ⟨rfl, rfl, by decide, rfl⟩

/-- Claim C6 (amended): swapping an empty container with a non-empty one
(either side) transfers the value: the non-empty side's discriminant is
copied over; a heap pointer is moved, nulling the source's pointer slot; an
inline object is move-constructed across and the source object destroyed;
the only table update is the final exchange of the two table pointers,
which hands the full side's table to the empty side and leaves the full
side's table null. Afterwards the formerly-empty side holds exactly the
original value (same observable content, hence unchanged invocation
behavior) and the formerly-full side is empty. -/
theorem empty_swap_transfer (env : Nat → CType E R A V) (a : Fn V) (t : Nat)
    (v : V) (ha : a.vptr = none) :
    swapFn env false a ⟨Cell.ptr (some v), some true, some t⟩ =
      some (⟨Cell.ptr (some v), some true, some t⟩,
            ⟨Cell.ptr none, some true, none⟩) ∧
    swapFn env false a ⟨Cell.obj v, some false, some t⟩ =
      some (⟨Cell.obj v, some false, some t⟩,
            ⟨Cell.uninit, some false, none⟩) ∧
    swapFn env false ⟨Cell.ptr (some v), some true, some t⟩ a =
      some (⟨Cell.ptr none, some true, none⟩,
            ⟨Cell.ptr (some v), some true, some t⟩) ∧
    swapFn env false ⟨Cell.obj v, some false, some t⟩ a =
      some (⟨Cell.uninit, some false, none⟩,
            ⟨Cell.obj v, some false, some t⟩) ∧
    obs (⟨Cell.ptr (some v), some true, some t⟩ : Fn V) = some (t, true, v) ∧
    obs (⟨Cell.obj v, some false, some t⟩ : Fn V) = some (t, false, v) ∧
    Fn.toBool (⟨Cell.ptr none, some true, none⟩ : Fn V) = false ∧
    Fn.toBool (⟨Cell.uninit, some false, none⟩ : Fn V) = false := by
  obtain ⟨s, ip, vp⟩ := a
  simp only at ha
  subst ha
  refine ⟨?_, ?_, ?_, ?_, rfl, rfl, rfl, rfl⟩ <;>
    simp [swapFn, sameInlineCond, swapVptrs]

/-- Claim C6 witness: the transfer theorem at a concrete empty container
and a concrete wrapped value. -/
theorem empty_swap_transfer_witness :
    swapFn envD false Fn.mkEmpty
        (⟨Cell.ptr (some (1, 5)), some true, some 1⟩ : Fn (Nat × Nat)) =
      some (⟨Cell.ptr (some (1, 5)), some true, some 1⟩,
            ⟨Cell.ptr none, some true, none⟩) :=
  (empty_swap_transfer envD Fn.mkEmpty 1 (1, 5) rfl).1

/-- Claim C2 witness: the involution theorem on a concrete heap-resident
container and a concrete inline container of a different type. -/
theorem swap_involution_witness :
    (((swapFn envD false
          (⟨Cell.ptr (some (1, 7)), some true, some 1⟩ : Fn (Nat × Nat))
          ⟨Cell.obj (0, 5), some false, some 0⟩).bind
        fun p => swapFn envD false p.1 p.2).map
      fun p => (obs p.1, obs p.2)) =
      some (obs (⟨Cell.ptr (some (1, 7)), some true, some 1⟩ : Fn (Nat × Nat)),
            obs (⟨Cell.obj (0, 5), some false, some 0⟩ : Fn (Nat × Nat))) :=
  swap_involution envD tyOfD _ _ rfl rfl

/-- Claim C5: copy assignment is guarded self-assignment plus
copy-and-swap. Self-assignment is a no-op returning both states unchanged;
when the copy construction of the temporary throws, the exception
propagates with both containers completely unmodified (strong guarantee);
when it succeeds, the left side ends up with exactly the copy's observable
content and the right side is untouched. -/
theorem copy_assign_strong (env : Nat → CType E R A V) (tyOf : V → Nat)
    (hEnv : EnvOk env tyOf) :
    (∀ f g : Fn V, assignCopyFn env true f g = some (Except.ok (), f, g)) ∧
    (∀ (self other : Fn V) (e : E),
       copyCtorFn env other = some (Except.error e) →
       assignCopyFn env false self other = some (Except.error e, self, other)) ∧
    (∀ self other c : Fn V, WFb tyOf self = true → WFb tyOf other = true →
       copyCtorFn env other = some (Except.ok c) →
       (assignCopyFn env false self other).map
           (fun r => (r.1, obs r.2.1, r.2.2)) =
         some (Except.ok (), obs c, other)) := by
  refine ⟨fun f g => by simp [assignCopyFn],
    fun self other e h => by simp [assignCopyFn, h], ?_⟩
  intro self other c hs ho hc
  obtain ⟨r, hr, hok⟩ := copyCtorFn_wf env tyOf hEnv other ho
  rw [hr] at hc
  simp only [Option.some.injEq] at hc
  subst hc
  have hwc : WFb tyOf c = true := hok c rfl
  obtain ⟨s', c', hsw, o1, _, _, _⟩ := swap_obs env tyOf self c hs hwc
  simp [assignCopyFn, hr, hsw, o1]

/-- Claim C5 witness: the strong-guarantee theorem applied with the
always-throwing environment (exception propagates, both sides unmodified)
and with the well-behaved environment (left side receives the copy's
content). -/
theorem copy_assign_strong_witness :
    assignCopyFn envE false (mkFn envE 0 (0, 1)) (mkFn envE 0 (0, 5)) =
      some (Except.error (), mkFn envE 0 (0, 1), mkFn envE 0 (0, 5)) ∧
    (assignCopyFn envD false (mkFn envD 0 (0, 1)) (mkFn envD 0 (0, 5))).map
        (fun r => (r.1, obs r.2.1, r.2.2)) =
      some (Except.ok (), obs (mkFn envD 0 (0, 5)), mkFn envD 0 (0, 5)) :=
  ⟨(copy_assign_strong envE tyOfD envOk_envE).2.1 _ _ () rfl,
   (copy_assign_strong envD tyOfD envOk_envD).2.2 _ _ (mkFn envD 0 (0, 5))
     rfl rfl rfl⟩

/-- Claim C7: emplace is construct-temporary-then-swap. When the
construction of the temporary throws (allocation failure on the heap path,
or the wrapped type's constructor), the exception propagates with the
container completely unmodified (strong guarantee); when it succeeds, the
container ends up with exactly the temporary's observable content — which,
for a constructor that produced `v`, is the newly constructed object of
type `t` in that type's storage mode. -/
theorem emplace_strong (env : Nat → CType E R A V) (tyOf : V → Nat) :
    (∀ (self : Fn V) t allocOk mk oom e,
       constructE t (env t) allocOk mk oom = Except.error e →
       emplaceFn env self t allocOk mk oom = some (Except.error e, self)) ∧
    (∀ (self : Fn V) t allocOk mk oom g, WFb tyOf self = true →
       (∀ w, mk = Except.ok w → tyOf w = t) →
       constructE t (env t) allocOk mk oom = Except.ok g →
       (emplaceFn env self t allocOk mk oom).map (fun q => (q.1, obs q.2)) =
         some (Except.ok (), obs g)) ∧
    (∀ t allocOk (v : V) oom g,
       constructE t (env t) allocOk (Except.ok v) oom = Except.ok g →
       obs g = some (t, (env t).isHeap, v)) := by
  refine ⟨fun self t allocOk mk oom e h => by simp [emplaceFn, h], ?_, ?_⟩
  · intro self t allocOk mk oom g hs hmk hc
    obtain ⟨v, hv, hg⟩ := constructE_ok t (env t) allocOk mk oom g hc
    have hwg : WFb tyOf g = true := by
      subst hg
      cases hh : (env t).isHeap <;> simp [WFb, hh, hmk v hv]
    obtain ⟨s', g', hsw, o1, _, _, _⟩ := swap_obs env tyOf self g hs hwg
    simp [emplaceFn, hc, hsw, o1]
  · intro t allocOk v oom g hc
    obtain ⟨v', hv', hg⟩ := constructE_ok t (env t) allocOk (Except.ok v) oom g hc
    simp only [Except.ok.injEq] at hv'
    subst hv'
    subst hg
    cases hh : (env t).isHeap <;> simp [obs, hh]

/-- Claim C7 witness: the emplace theorem at concrete inputs — a failing
heap allocation leaves a concrete container untouched, and a successful
construction is wrapped as the new content. -/
theorem emplace_strong_witness :
    emplaceFn envD (mkFn envD 0 (0, 5)) 1 false (Except.ok (1, 9)) () =
      some (Except.error (), mkFn envD 0 (0, 5)) ∧
    obs (⟨Cell.ptr (some (1, 9)), some true, some 1⟩ : Fn (Nat × Nat)) =
      some (1, (envD 1).isHeap, (1, 9)) :=
  ⟨(emplace_strong envD tyOfD).1 _ 1 false (Except.ok (1, 9)) () () rfl,
   (emplace_strong envD tyOfD).2.2 1 true (1, 9) ()
     ⟨Cell.ptr (some (1, 9)), some true, some 1⟩ rfl⟩

/-- Claim C9: the container state invariant — null table exactly when
empty (the boolean conversion reads the table pointer), determinate
discriminant required only under a non-null table, and under a non-null
table the storage holding, per the discriminant, a live inline object or a
valid non-null heap pointer to a live object of the table's concrete
type — holds for a default-constructed container and is preserved, without
ever hitting undefined behavior, by construction from a callable, copy and
move construction, copy and move assignment (guarded self-assignment
included), emplace, reset (and hence the destructor, which delegates to
reset), swap (self-swap included), and invocation of a non-empty
container. -/
theorem state_invariant (env : Nat → CType E R A V) (tyOf : V → Nat)
    (hEnv : EnvOk env tyOf) (f g : Fn V) (hf : WFb tyOf f = true)
    (hg : WFb tyOf g = true) (t : Nat) (v : V) (hv : tyOf v = t)
    (allocOk : Bool) (mk : Except E V)
    (hmk : ∀ w, mk = Except.ok w → tyOf w = t) (oom : E) (x : A) :
    (f.toBool = false ↔ f.vptr = none) ∧
    WFb tyOf (Fn.mkEmpty : Fn V) = true ∧
    WFb tyOf (mkFn env t v) = true ∧
    (∀ h, constructE t (env t) allocOk mk oom = Except.ok h →
       WFb tyOf h = true) ∧
    (∃ r, copyCtorFn env f = some r ∧
       ∀ c, r = Except.ok c → WFb tyOf c = true) ∧
    (∃ d f', moveCtorFn f = some (d, f') ∧ WFb tyOf d = true ∧
       WFb tyOf f' = true) ∧
    assignCopyFn env true f f = some (Except.ok (), f, f) ∧
    (∃ r s', assignCopyFn env false f g = some (r, s', g) ∧
       WFb tyOf s' = true) ∧
    assignMoveFn env true f f = some (f, f) ∧
    (∃ p q, assignMoveFn env false f g = some (p, q) ∧ WFb tyOf p = true ∧
       WFb tyOf q = true) ∧
    (∃ r s', emplaceFn env f t allocOk mk oom = some (r, s') ∧
       WFb tyOf s' = true) ∧
    (∃ f', resetFn f = some f' ∧ WFb tyOf f' = true ∧ f'.toBool = false) ∧
    swapFn env true f g = some (f, g) ∧
    (∃ p q, swapFn env false f g = some (p, q) ∧ WFb tyOf p = true ∧
       WFb tyOf q = true) ∧
    (f.toBool = true → ∃ r f', call env f x = some (r, f') ∧
       WFb tyOf f' = true) := by
  refine ⟨?_, rfl, WFb_mkFn env tyOf t v hv, ?_, copyCtorFn_wf env tyOf hEnv f hf,
    ?_, by simp [assignCopyFn], assignCopyFn_wf env tyOf hEnv f g hf hg,
    by simp [assignMoveFn], ?_, emplaceFn_wf env tyOf f hf t allocOk mk oom hmk,
    resetFn_wf tyOf f hf, by simp [swapFn], ?_,
    fun hne => call_wf env tyOf hEnv f hf hne x⟩
  · obtain ⟨s, ip, vp⟩ := f
    cases vp <;> simp [Fn.toBool]
  · intro h hh
    obtain ⟨w, hw, rfl⟩ := constructE_ok t (env t) allocOk mk oom h hh
    cases hh' : (env t).isHeap <;> simp [WFb, hh', hmk w hw]
  · obtain ⟨d, f', hm, _, hw1, hw2⟩ := moveCtorFn_wf tyOf f hf
    exact ⟨d, f', hm, hw1, hw2⟩
  · obtain ⟨p, q, hs, hw1, hw2⟩ :=
      (by
        obtain ⟨p, q, hs, _, _, hw1, hw2⟩ := swap_obs env tyOf f g hf hg
        exact ⟨p, q, hs, hw1, hw2⟩ :
        ∃ p q, swapFn env false f g = some (p, q) ∧ WFb tyOf p = true ∧
          WFb tyOf q = true)
    exact ⟨p, q, by simpa [assignMoveFn] using hs, hw1, hw2⟩
  · obtain ⟨p, q, hs, _, _, hw1, hw2⟩ := swap_obs env tyOf f g hf hg
    exact ⟨p, q, hs, hw1, hw2⟩

/-- Claim C9 witness: the invariant theorem at a concrete environment and
concrete containers, extracting the binder-free components (emptiness
reads the table pointer, well-formedness of freshly built containers,
guarded self-assignment and self-swap). -/
theorem state_invariant_witness :
    ((⟨Cell.ptr (some (1, 7)), some true, some 1⟩ :
        Fn (Nat × Nat)).toBool = false ↔
      (⟨Cell.ptr (some (1, 7)), some true, some 1⟩ :
        Fn (Nat × Nat)).vptr = none) ∧
    WFb tyOfD (Fn.mkEmpty : Fn (Nat × Nat)) = true ∧
    WFb tyOfD (mkFn envD 0 (0, 5)) = true ∧
    swapFn envD true (⟨Cell.ptr (some (1, 7)), some true, some 1⟩ : Fn (Nat × Nat))
        ⟨Cell.obj (0, 5), some false, some 0⟩ =
      some (⟨Cell.ptr (some (1, 7)), some true, some 1⟩,
            ⟨Cell.obj (0, 5), some false, some 0⟩) := by
  have h := state_invariant envD tyOfD envOk_envD
    ⟨Cell.ptr (some (1, 7)), some true, some 1⟩
    ⟨Cell.obj (0, 5), some false, some 0⟩ rfl rfl 0 (0, 5) rfl true
    (Except.ok (0, 5)) (fun w hw => by cases hw; rfl) () 7
  exact ⟨h.1, h.2.1, h.2.2.1, h.2.2.2.2.2.2.2.2.2.2.2.2.1⟩

end Fn2
